import Mathlib

/-
Shallow embedding of the CS50TimeTracker core: the event log and state
queries (database_repositories.py), the time-management engine
(time_management_service.py), and report derivation (report_generator.py).
Timestamps are modelled as integers; database rows are Lean structures and
tables are lists in insertion order (list position = ascending primary key).
-/

/-- The closed action enumeration from enums.ActionType. -/
inductive ActionType where
  | workdayStart
  | workdayEnd
  | projectStart
  | projectEnd
  | projectResume
  | breakStart
  | breakEnd
deriving DecidableEq, Repr

/-- A row of the tracking table (sitr_models.Tracking): the immutable event
log entry.  The primary key is implicit: list position in insertion order. -/
structure Tracking where
  user_id : Nat
  project_id : Option Nat
  action : ActionType
  date_time : Int
  message : Option String
deriving DecidableEq, Repr

/-- A row of the project table (sitr_models.Project), restricted to the
fields the engine reads or writes. -/
structure Project where
  id : Nat
  name : String
  user_id : Nat
  state : String
  tracking_count : Nat
deriving DecidableEq, Repr

/-- A row of the user table (sitr_models.User), restricted to the fields
the engine reads or writes. -/
structure UserRec where
  id : Nat
  last_active : Option Int
deriving DecidableEq, Repr

/-- The persistent store the engine operates on: users, projects and the
append-only tracking log. -/
structure DB where
  users : List UserRec
  projects : List Project
  log : List Tracking
deriving DecidableEq, Repr

/-- One folding step of `lastByTime`: keep the event with the larger
timestamp, a later event winning ties. -/
def stepLatest (acc : Option Tracking) (e : Tracking) : Option Tracking :=
  match acc with
  | none => some e
  | some a => if a.date_time ≤ e.date_time then some e else some a

/-- Model of `session.exec(select(Tracking).where(...).order_by(Tracking.date_time.desc())).first()`
applied to an already-filtered list: the event with the greatest timestamp.
The SQL orders by date_time only; for equal timestamps this model resolves
the tie to the most recently inserted row (the greatest primary key), the
order the deployed SQLite index scan yields. -/
def lastByTime (l : List Tracking) : Option Tracking :=
  l.foldl stepLatest none

/-- The WHERE clause of TrackingRepository.has_open_day: workday-related
events of the user. -/
def isWorkdayEvent (uid : Nat) (e : Tracking) : Bool :=
  e.user_id == uid &&
  (e.action == ActionType.workdayStart || e.action == ActionType.workdayEnd)

/-- The WHERE clause of TrackingRepository.is_break_active: break-related
events of the user. -/
def isBreakEvent (uid : Nat) (e : Tracking) : Bool :=
  e.user_id == uid &&
  (e.action == ActionType.breakStart || e.action == ActionType.breakEnd)

/-- The WHERE clause of the project scans: project-related events of the
user carrying a project id. -/
def isProjectEvent (uid : Nat) (e : Tracking) : Bool :=
  e.user_id == uid && e.project_id.isSome &&
  (e.action == ActionType.projectStart || e.action == ActionType.projectEnd ||
   e.action == ActionType.projectResume)

/-- TrackingRepository.has_open_day: the latest workday-related event for
the user exists and is a WorkdayStart. -/
def has_open_day (log : List Tracking) (uid : Nat) : Bool :=
  match lastByTime (log.filter (isWorkdayEvent uid)) with
  | none => false
  | some e => e.action == ActionType.workdayStart

/-- TrackingRepository.is_break_active: the latest break-related event for
the user exists and is a BreakStart. -/
def is_break_active (log : List Tracking) (uid : Nat) : Bool :=
  match lastByTime (log.filter (isBreakEvent uid)) with
  | none => false
  | some e => e.action == ActionType.breakStart

/-- TrackingRepository.is_any_project_active: the latest project-related
event (with a project id) for the user is a ProjectStart or ProjectResume. -/
def is_any_project_active (log : List Tracking) (uid : Nat) : Bool :=
  match lastByTime (log.filter (isProjectEvent uid)) with
  | none => false
  | some e => e.action == ActionType.projectStart || e.action == ActionType.projectResume

/-- TrackingRepository.is_project_active: same scan restricted to one
specific project id. -/
def is_project_active (log : List Tracking) (uid pid : Nat) : Bool :=
  match lastByTime (log.filter (fun e =>
      e.user_id == uid && e.project_id == some pid &&
      (e.action == ActionType.projectStart || e.action == ActionType.projectEnd ||
       e.action == ActionType.projectResume))) with
  | none => false
  | some e => e.action == ActionType.projectStart || e.action == ActionType.projectResume

/-- TrackingRepository.get_active_project_id: the project id of the latest
project-related event, when that event is a ProjectStart or ProjectResume. -/
def get_active_project_id (log : List Tracking) (uid : Nat) : Option Nat :=
  match lastByTime (log.filter (isProjectEvent uid)) with
  | none => none
  | some e =>
    if e.action == ActionType.projectStart || e.action == ActionType.projectResume then
      e.project_id
    else none

/-- TrackingRepository.get_last_project_before_break: meaningful only when
the latest break-related event is a BreakStart; then the project id of the
latest ProjectStart/ProjectResume strictly before that BreakStart. -/
def get_last_project_before_break (log : List Tracking) (uid : Nat) : Option Nat :=
  match lastByTime (log.filter (isBreakEvent uid)) with
  | none => none
  | some b =>
    if b.action == ActionType.breakStart then
      match lastByTime (log.filter (fun e =>
          e.user_id == uid && e.project_id.isSome &&
          decide (e.date_time < b.date_time) &&
          (e.action == ActionType.projectStart || e.action == ActionType.projectResume))) with
      | none => none
      | some p => p.project_id
    else none

/-- ProjectRepository.get_by_name: first project row matching name and
user id (insertion order, models .first()). -/
def get_by_name (projects : List Project) (name : String) (uid : Nat) : Option Project :=
  projects.find? (fun p => p.name == name && p.user_id == uid)

/-- UserRepository.get by primary key, modelled on the user list. -/
def findUser (users : List UserRec) (uid : Nat) : Option UserRec :=
  users.find? (fun u => u.id == uid)

/-- BaseRepository.update on the user table stamping last_active, as every
successful engine operation does. -/
def stampUsers (users : List UserRec) (uid : Nat) (now : Int) : List UserRec :=
  users.map (fun u => if u.id == uid then { u with last_active := some now } else u)

/-- BaseRepository.update on the project table setting tracking_count. -/
def setTrackingCount (projects : List Project) (pid : Nat) (c : Nat) : List Project :=
  projects.map (fun p => if p.id == pid then { p with tracking_count := c } else p)

/-- The auto-assigned primary key for a new project row. -/
def nextProjectId (projects : List Project) : Nat :=
  (projects.map (fun p => p.id)).foldl max 0 + 1

/-- The tracking_count of the project row with the given id, when present. -/
def tracking_count_of (projects : List Project) (pid : Nat) : Option Nat :=
  (projects.find? (fun p => p.id == pid)).map (fun p => p.tracking_count)

/-- Exception classes the Python service and HTTP layer can branch on:
every business failure in time_management_service.py is a ValueError;
anything else is an unexpected internal exception. -/
inductive ExcClass where
  | valueError
  | internal
deriving DecidableEq, Repr

/-- An exception: its class and its message text. -/
structure Err where
  cls : ExcClass
  msg : String
deriving DecidableEq, Repr

/-- Result dict of TimeManagementService.start_day. -/
structure StartDayResult where
  success : Bool
  message : String
  timestamp : Int
deriving DecidableEq, Repr

/-- Result dict of TimeManagementService.end_day. -/
structure EndDayResult where
  success : Bool
  message : String
  timestamp : Int
  closed_project : Bool
  closed_break : Bool
deriving DecidableEq, Repr

/-- Result dict of TimeManagementService.start_project; the early
already-active return carries only success and message, modelled by none
in the remaining fields. -/
structure StartProjectResult where
  success : Bool
  message : String
  timestamp : Option Int
  project_id : Option Nat
  ended_project_id : Option Nat
  was_created : Bool
deriving DecidableEq, Repr

/-- Result dict of TimeManagementService.continue_project. -/
structure ContinueProjectResult where
  success : Bool
  message : String
  timestamp : Int
  project_id : Nat
deriving DecidableEq, Repr

/-- TimeManagementService.start_day.  The pair carries the store as left
behind by the operation (unchanged on the error paths, which raise before
any write) together with the returned dict or raised error. -/
def start_day (db : DB) (uid : Nat) (now : Int) : DB × Except Err StartDayResult :=
  match findUser db.users uid with
  | none => (db, Except.error ⟨ExcClass.valueError, "User not found"⟩)
  | some _ =>
    if has_open_day db.log uid then
      (db, Except.error ⟨ExcClass.valueError, "The workday has already started"⟩)
    else
      ({ db with
          log := db.log ++ [⟨uid, none, ActionType.workdayStart, now, none⟩],
          users := stampUsers db.users uid now },
       Except.ok ⟨true, "Workday started", now⟩)

/-- TimeManagementService.end_day: auto-closes an active break, then an
active project, then ends the workday, all stamped with the single
timestamp captured at operation entry; closed_break in the result is
re-evaluated on the log after the appends, exactly as the source does. -/
def end_day (db : DB) (uid : Nat) (now : Int) : DB × Except Err EndDayResult :=
  match findUser db.users uid with
  | none => (db, Except.error ⟨ExcClass.valueError, "User not found"⟩)
  | some _ =>
    if !(has_open_day db.log uid) then
      (db, Except.error ⟨ExcClass.valueError, "No open workday to end"⟩)
    else
      let log1 :=
        if is_break_active db.log uid then
          db.log ++ [⟨uid, none, ActionType.breakEnd, now, some "Auto-closed at end of day"⟩]
        else db.log
      let apid := get_active_project_id log1 uid
      let log2 :=
        match apid with
        | some pid =>
          log1 ++ [⟨uid, some pid, ActionType.projectEnd, now, some "Auto-closed at end of day"⟩]
        | none => log1
      let log3 := log2 ++ [⟨uid, none, ActionType.workdayEnd, now, none⟩]
      ({ db with log := log3, users := stampUsers db.users uid now },
       Except.ok ⟨true, "Workday ended", now, apid.isSome, is_break_active log3 uid⟩)

/-- TimeManagementService.start_project: validates user and open day,
resolves or auto-creates the project, returns a failure dict (not an
error) when that project is already active, otherwise performs the
handover (ProjectEnd for the active project), auto-ends an active break,
appends the ProjectStart and increments the tracking_count. -/
def start_project (db : DB) (uid : Nat) (name : String) (auto_create : Bool)
    (now : Int) : DB × Except Err StartProjectResult :=
  match findUser db.users uid with
  | none => (db, Except.error ⟨ExcClass.valueError, "User not found"⟩)
  | some _ =>
    if !(has_open_day db.log uid) then
      (db, Except.error ⟨ExcClass.valueError, "No open workday. Please start your day first."⟩)
    else
      let resolved : Option (List Project × Project) :=
        match get_by_name db.projects name uid with
        | some p => some (db.projects, p)
        | none =>
          if auto_create then
            let np : Project := ⟨nextProjectId db.projects, name, uid, "active", 0⟩
            some (db.projects ++ [np], np)
          else none
      match resolved with
      | none =>
        (db, Except.error ⟨ExcClass.valueError, "Project " ++ name ++ " not found"⟩)
      | some (projs, p) =>
        let finish := fun (log1 : List Tracking) (ended : Option Nat) =>
          let log2 :=
            if is_break_active log1 uid then
              log1 ++ [⟨uid, none, ActionType.breakEnd, now, some "Auto-ended for project start"⟩]
            else log1
          let log3 := log2 ++ [⟨uid, some p.id, ActionType.projectStart, now, none⟩]
          ({ users := stampUsers db.users uid now,
             projects := setTrackingCount projs p.id (p.tracking_count + 1),
             log := log3 },
           Except.ok (⟨true, "Started working on " ++ name, some now,
             some p.id, ended, false⟩ : StartProjectResult))
        match get_active_project_id db.log uid with
        | some aid =>
          if aid == p.id then
            ({ db with projects := projs },
             Except.ok ⟨false, "Project " ++ name ++ " is already active",
               none, none, none, false⟩)
          else
            finish
              (db.log ++ [⟨uid, some aid, ActionType.projectEnd, now, some "Auto-ended for project switch"⟩])
              (some aid)
        | none => finish db.log none

/-- TimeManagementService.continue_project: requires an active break and a
resumable project, then appends BreakEnd followed by ProjectResume, both
with the single timestamp captured at operation entry. -/
def continue_project (db : DB) (uid : Nat) (now : Int) :
    DB × Except Err ContinueProjectResult :=
  match findUser db.users uid with
  | none => (db, Except.error ⟨ExcClass.valueError, "User not found"⟩)
  | some _ =>
    if !(is_break_active db.log uid) then
      (db, Except.error ⟨ExcClass.valueError, "No active break to end"⟩)
    else
      match get_last_project_before_break db.log uid with
      | none => (db, Except.error ⟨ExcClass.valueError, "No recent project to resume"⟩)
      | some pid =>
        match db.projects.find? (fun p => p.id == pid) with
        | none => (db, Except.error ⟨ExcClass.valueError, "Previous project not found"⟩)
        | some p =>
          ({ db with
              log := db.log ++
                [⟨uid, none, ActionType.breakEnd, now, some "Auto-ended for project resume"⟩,
                 ⟨uid, some pid, ActionType.projectResume, now, none⟩],
              users := stampUsers db.users uid now },
           Except.ok ⟨true, "Resumed work on " ++ p.name, now, pid⟩)

/-- The HTTP mapping of the sitr_api.py endpoints: any ValueError raised
by the service becomes status 400, any other exception becomes 500, a
normal return becomes 200. -/
def http_status {α : Type} (r : Except Err α) : Nat :=
  match r with
  | Except.ok _ => 200
  | Except.error e =>
    match e.cls with
    | ExcClass.valueError => 400
    | ExcClass.internal => 500

/-- BaseRepository.add commit semantics: each add issues session.commit()
immediately, even on a session injected for the surrounding operation, so
every appended event is durably committed the moment add returns.  This
runs the listed adds in order against the committed log; the add numbered
failAt raises, aborting the rest.  The Bool records whether all adds
succeeded; the rollback issued by the surrounding session context undoes
nothing because nothing is left pending. -/
def commitAdds (log : List Tracking) : List Tracking → Nat → List Tracking × Bool
  | [], _ => (log, true)
  | _ :: _, 0 => (log, false)
  | e :: rest, n + 1 => commitAdds (log ++ [e]) rest n

/-- TimeManagementService.end_day with a storage failure injected at the
add numbered failAt, under the per-add commit semantics of
BaseRepository.add; returns the committed log after the operation and
whether it succeeded. -/
def end_day_withFailure (db : DB) (uid : Nat) (now : Int) (failAt : Nat) :
    List Tracking × Bool :=
  match findUser db.users uid with
  | none => (db.log, false)
  | some _ =>
    if !(has_open_day db.log uid) then
      (db.log, false)
    else
      let evsBreak :=
        if is_break_active db.log uid then
          [(⟨uid, none, ActionType.breakEnd, now, some "Auto-closed at end of day"⟩ : Tracking)]
        else []
      let evsProj :=
        match get_active_project_id (db.log ++ evsBreak) uid with
        | some pid =>
          [(⟨uid, some pid, ActionType.projectEnd, now, some "Auto-closed at end of day"⟩ : Tracking)]
        | none => []
      commitAdds db.log
        (evsBreak ++ evsProj ++ [⟨uid, none, ActionType.workdayEnd, now, none⟩]) failAt

/-- A derived work session, as built by report_generator.ReportData:
project name, start and end timestamps, duration, and the ongoing flag
(set only on the trailing open session). -/
structure SessionRec where
  project : String
  start : Int
  stop : Int
  duration : Int
  ongoing : Bool
deriving DecidableEq, Repr

/-- A derived break pairing a BreakStart with the next BreakEnd. -/
structure BreakRec where
  start : Int
  stop : Int
  duration : Int
deriving DecidableEq, Repr

/-- One decorated input entry for report derivation: action, timestamp
and optional project name, as report endpoints hand them to ReportData. -/
structure Entry where
  action : ActionType
  timestamp : Int
  project_name : Option String
deriving DecidableEq, Repr

/-- The mutable state of ReportData._calculate during its single forward
pass, together with the accumulated output fields. -/
structure CalcState where
  current_project : Option String
  current_start : Option Int
  break_start : Option Int
  sessions : List SessionRec
  breaks : List BreakRec
  workday_start : Option Int
  workday_end : Option Int
deriving DecidableEq, Repr

/-- Python truthiness of the current_project variable: None and the empty
string are falsy, matching the `if current_project and current_start`
guards in ReportData._calculate. -/
def truthyName : Option String → Bool
  | none => false
  | some s => !(s == "")

/-- One loop iteration of ReportData._calculate. -/
def calcStep (st : CalcState) (e : Entry) : CalcState :=
  match e.action with
  | ActionType.workdayStart => { st with workday_start := some e.timestamp }
  | ActionType.workdayEnd =>
    match st.current_project, st.current_start with
    | some p, some s =>
      if p == "" then { st with workday_end := some e.timestamp }
      else
        { st with
            workday_end := some e.timestamp
            sessions := st.sessions ++ [⟨p, s, e.timestamp, e.timestamp - s, false⟩]
            current_project := none
            current_start := none }
    | _, _ => { st with workday_end := some e.timestamp }
  | ActionType.projectStart =>
    { st with current_project := e.project_name, current_start := some e.timestamp }
  | ActionType.projectResume =>
    { st with current_project := e.project_name, current_start := some e.timestamp }
  | ActionType.projectEnd =>
    match st.current_project, st.current_start with
    | some p, some s =>
      if p == "" then { st with current_project := none, current_start := none }
      else
        { st with
            sessions := st.sessions ++ [⟨p, s, e.timestamp, e.timestamp - s, false⟩]
            current_project := none
            current_start := none }
    | _, _ => { st with current_project := none, current_start := none }
  | ActionType.breakStart =>
    match st.current_project, st.current_start with
    | some p, some s =>
      if p == "" then { st with break_start := some e.timestamp }
      else
        { st with
            break_start := some e.timestamp
            sessions := st.sessions ++ [⟨p, s, e.timestamp, e.timestamp - s, false⟩] }
    | _, _ => { st with break_start := some e.timestamp }
  | ActionType.breakEnd =>
    match st.break_start with
    | some b =>
      { st with
          breaks := st.breaks ++ [⟨b, e.timestamp, e.timestamp - b⟩]
          break_start := none }
    | none => { st with break_start := none }

/-- The empty initial state of ReportData._calculate. -/
def initCalcState : CalcState := ⟨none, none, none, [], [], none, none⟩

/-- ReportData._calculate: the forward pass over the entries, then the
final close of a session still open at end of input, emitted with
ongoing set and end equal to now. -/
def calculate (entries : List Entry) (now : Int) : CalcState :=
  let st := entries.foldl calcStep initCalcState
  match st.current_project, st.current_start with
  | some p, some s =>
    if p == "" then st
    else { st with sessions := st.sessions ++ [⟨p, s, now, now - s, true⟩] }
  | _, _ => st

/-- ReportData.get_total_work_time: sum of session durations. -/
def get_total_work_time (st : CalcState) : Int :=
  st.sessions.foldl (fun acc s => acc + s.duration) 0

/-- ReportData.get_total_break_time: sum of break durations. -/
def get_total_break_time (st : CalcState) : Int :=
  st.breaks.foldl (fun acc b => acc + b.duration) 0

/-- Concrete store for the repeated project-switch scenario: one user,
projects A (id 1) and B (id 2) with zero tracking_count, one open day. -/
def ababDB : DB :=
  ⟨[⟨1, none⟩],
   [⟨1, "A", 1, "active", 0⟩, ⟨2, "B", 1, "active", 0⟩],
   [⟨1, none, ActionType.workdayStart, 0, none⟩]⟩

/-- The store after the call sequence start_project A, B, A, B
at times 1, 2, 3, 4. -/
def ababFinal : DB :=
  let s1 := (start_project ababDB 1 "A" true 1).1
  let s2 := (start_project s1 1 "B" true 2).1
  let s3 := (start_project s2 1 "A" true 3).1
  (start_project s3 1 "B" true 4).1

/-- Concrete store with an open day, project X (id 1) active and a break
active, used to instantiate the end_day theorems. -/
def endDayDB : DB :=
  ⟨[⟨1, none⟩],
   [⟨1, "X", 1, "active", 1⟩],
   [⟨1, none, ActionType.workdayStart, 0, none⟩,
    ⟨1, some 1, ActionType.projectStart, 1, none⟩,
    ⟨1, none, ActionType.breakStart, 2, none⟩]⟩

/-- Concrete store with an open day and project A (id 1) active, used to
instantiate the project-switch theorem. -/
def switchDB : DB :=
  ⟨[⟨1, none⟩],
   [⟨1, "A", 1, "active", 1⟩, ⟨2, "B", 1, "active", 0⟩],
   [⟨1, none, ActionType.workdayStart, 0, none⟩,
    ⟨1, some 1, ActionType.projectStart, 1, none⟩]⟩

/-- Concrete store with no user row, used for the error-class theorems. -/
def noUserDB : DB := ⟨[], [], []⟩

/-- Concrete store with one user and an already-open workday. -/
def openDayDB : DB :=
  ⟨[⟨1, none⟩], [], [⟨1, none, ActionType.workdayStart, 0, none⟩]⟩

/-- Concrete store with one user and an empty log. -/
def freshDB : DB := ⟨[⟨1, none⟩], [], []⟩

/-- The event sequence of the report scenario at concrete times
0, 1, 2, 3, 4 for project X. -/
def scenarioEntries (t0 t1 t2 t3 t4 : Int) : List Entry :=
  [⟨ActionType.workdayStart, t0, none⟩,
   ⟨ActionType.projectStart, t1, some "X"⟩,
   ⟨ActionType.breakStart, t2, none⟩,
   ⟨ActionType.breakEnd, t3, none⟩,
   ⟨ActionType.projectResume, t3, some "X"⟩,
   ⟨ActionType.projectEnd, t4, some "X"⟩,
   ⟨ActionType.workdayEnd, t4, none⟩]

/-- Whatever the backward scan returns was either the fold accumulator or
an element of the scanned list. -/
theorem foldl_stepLatest_mem (l : List Tracking) :
    ∀ (acc : Option Tracking) (b : Tracking),
      l.foldl stepLatest acc = some b → acc = some b ∨ b ∈ l := by
  induction l with
  | nil => intro acc b h; exact Or.inl h
  | cons e t ih =>
    intro acc b h
    rcases ih (stepLatest acc e) b h with h1 | h2
    · cases acc with
      | none =>
        simp only [stepLatest] at h1
        injection h1 with h1
        right
        rw [h1]
        exact List.mem_cons_self _ _
      | some a =>
        simp only [stepLatest] at h1
        by_cases hle : a.date_time ≤ e.date_time
        · rw [if_pos hle] at h1
          injection h1 with h1
          right
          rw [h1]
          exact List.mem_cons_self _ _
        · rw [if_neg hle] at h1
          exact Or.inl h1
    · exact Or.inr (List.mem_cons_of_mem e h2)

/-- Appending an event whose timestamp bounds everything in the list makes
it the result of the backward scan (latest insertion wins timestamp ties). -/
theorem lastByTime_append_last (l : List Tracking) (e : Tracking)
    (h : ∀ a ∈ l, a.date_time ≤ e.date_time) :
    lastByTime (l ++ [e]) = some e := by
  unfold lastByTime
  rw [List.foldl_append]
  cases hf : l.foldl stepLatest none with
  | none => simp [stepLatest]
  | some a =>
    rcases foldl_stepLatest_mem l none a hf with h1 | h2
    · exact absurd h1 (by simp)
    · simp [List.foldl, stepLatest, h a h2]

/-- Stamping last_active does not change whether the user row is found. -/
theorem findUser_stampUsers_isSome (users : List UserRec) (uid : Nat) (now : Int) :
    (findUser (stampUsers users uid now) uid).isSome = (findUser users uid).isSome := by
  induction users with
  | nil => rfl
  | cons u us ih =>
    unfold findUser stampUsers at *
    by_cases h : (u.id == uid) = true
    · simp [List.find?, h]
    · have h0 : (u.id == uid) = false := by simpa using h
      simp only [List.map]
      rw [if_neg h]
      simp only [List.find?, h0, cond_false]
      exact ih

/-- Reading the tracking_count back after setTrackingCount. -/
theorem tracking_count_setTrackingCount (projects : List Project) (pid : Nat) (c : Nat) :
    tracking_count_of (setTrackingCount projects pid c) pid =
      (projects.find? (fun p => p.id == pid)).map (fun _ => c) := by
  induction projects with
  | nil => rfl
  | cons p ps ih =>
    by_cases h : (p.id == pid) = true
    · simp [tracking_count_of, setTrackingCount, List.find?, h]
    · simp only [tracking_count_of, setTrackingCount, List.map, List.find?] at *
      rw [if_neg (by simp [h])]
      simp only [h]
      exact ih

/-- Appending a non-break event does not change is_break_active. -/
theorem is_break_active_append (l : List Tracking) (e : Tracking) (uid : Nat)
    (h : isBreakEvent uid e = false) :
    is_break_active (l ++ [e]) uid = is_break_active l uid := by
  unfold is_break_active
  rw [List.filter_append]
  simp [List.filter, h]

/-- Appending an event with no project id does not change
get_active_project_id. -/
theorem get_active_project_id_append (l : List Tracking) (e : Tracking) (uid : Nat)
    (h : isProjectEvent uid e = false) :
    get_active_project_id (l ++ [e]) uid = get_active_project_id l uid := by
  unfold get_active_project_id
  rw [List.filter_append]
  simp [List.filter, h]

/-- Claim C1 (code bug): end_day is not atomic under the commit semantics
of BaseRepository.add, which issues session.commit() inside every add even
on the session injected for the operation.  On a store with an open day,
an active break and an active project, a storage failure at the third add
(the WorkdayEnd) leaves the BreakEnd and ProjectEnd of the failed
operation committed in the log. -/
theorem end_day_partial_commit :
    end_day_withFailure endDayDB 1 5 2 =
      (endDayDB.log ++
        [⟨1, none, ActionType.breakEnd, 5, some "Auto-closed at end of day"⟩,
         ⟨1, some 1, ActionType.projectEnd, 5, some "Auto-closed at end of day"⟩], false) ∧
    (end_day_withFailure endDayDB 1 5 2).1 ≠ endDayDB.log := by
  exact ⟨by rfl, by decide⟩

/-- Claim C3: calling start_project for the project that is already active
returns a failure dict (success false) instead of raising, appends no
event and leaves the store, in particular every tracking_count, unchanged. -/
theorem start_project_already_active (db : DB) (uid : Nat) (name : String)
    (now : Int) (p : Project)
    (hu : (findUser db.users uid).isSome = true)
    (hopen : has_open_day db.log uid = true)
    (hp : get_by_name db.projects name uid = some p)
    (hact : get_active_project_id db.log uid = some p.id) :
    start_project db uid name true now =
      (db, Except.ok ⟨false, "Project " ++ name ++ " is already active",
        none, none, none, false⟩) := by
  obtain ⟨u, hu2⟩ := Option.isSome_iff_exists.mp hu
  simp [start_project, hu2, hopen, hp, hact]

/-- Witness for C3 at a concrete store: project A is active and
start_project A returns the failure dict leaving the store unchanged. -/
theorem start_project_already_active_witness :
    (findUser switchDB.users 1).isSome = true ∧
    has_open_day switchDB.log 1 = true ∧
    get_by_name switchDB.projects "A" 1 = some ⟨1, "A", 1, "active", 1⟩ ∧
    get_active_project_id switchDB.log 1 = some (Project.id ⟨1, "A", 1, "active", 1⟩) ∧
    start_project switchDB 1 "A" true 2 =
      (switchDB, Except.ok ⟨false, "Project " ++ "A" ++ " is already active",
        none, none, none, false⟩) :=
  ⟨by decide, by decide, by decide, by decide,
   start_project_already_active switchDB 1 "A" 2 ⟨1, "A", 1, "active", 1⟩
     (by decide) (by decide) (by decide) (by decide)⟩

/-- Claim C8: continue_project with no active break fails with the
"No active break to end" ValueError and leaves the store untouched. -/
theorem continue_project_requires_break (db : DB) (uid : Nat) (now : Int)
    (hu : (findUser db.users uid).isSome = true)
    (hnb : is_break_active db.log uid = false) :
    continue_project db uid now =
      (db, Except.error ⟨ExcClass.valueError, "No active break to end"⟩) := by
  obtain ⟨u, hu2⟩ := Option.isSome_iff_exists.mp hu
  simp [continue_project, hu2, hnb]

/-- Witness for C8 at a concrete store with an open day and no break. -/
theorem continue_project_requires_break_witness :
    (findUser openDayDB.users 1).isSome = true ∧
    is_break_active openDayDB.log 1 = false ∧
    continue_project openDayDB 1 7 =
      (openDayDB, Except.error ⟨ExcClass.valueError, "No active break to end"⟩) :=
  ⟨by decide, by decide,
   continue_project_requires_break openDayDB 1 7 (by decide) (by decide)⟩

/-- Counterexample for claim C9: the entity-not-found failure and the
precondition failure of start_day are raised with the identical exception
class (ValueError), and the HTTP layer maps both to status 400, so a
caller cannot produce the claimed 400 versus 404 distinction without
inspecting the message text. -/
theorem start_day_error_class_conflated :
    (start_day noUserDB 1 5).2 = Except.error ⟨ExcClass.valueError, "User not found"⟩ ∧
    (start_day openDayDB 1 5).2 =
      Except.error ⟨ExcClass.valueError, "The workday has already started"⟩ ∧
    http_status (start_day noUserDB 1 5).2 = 400 ∧
    http_status (start_day openDayDB 1 5).2 = 400 :=
  ⟨rfl, rfl, rfl, rfl⟩

/-- Claim C9 as amended: every error start_day raises carries the single
ValueError class, and the HTTP boundary maps it to 400 — so unknown-user
and precondition failures are indistinguishable by class, and only the
400 versus 500 split survives. -/
theorem start_day_error_always_valueError (db : DB) (uid : Nat) (now : Int) (e : Err)
    (h : (start_day db uid now).2 = Except.error e) :
    e.cls = ExcClass.valueError ∧ http_status (start_day db uid now).2 = 400 := by
  cases hf : findUser db.users uid with
  | none =>
    simp only [start_day, hf] at h ⊢
    injection h with h
    exact ⟨by rw [← h], by simp [http_status, ← h]⟩
  | some u =>
    by_cases ho : has_open_day db.log uid
    · simp only [start_day, hf, ho, if_pos] at h ⊢
      injection h with h
      exact ⟨by rw [← h], by simp [http_status, ← h]⟩
    · simp only [start_day, hf] at h
      rw [if_neg ho] at h
      exact absurd h (by simp)

/-- Witness for the amended C9 at the concrete missing-user store. -/
theorem start_day_error_always_valueError_witness :
    (start_day noUserDB 1 5).2 =
      Except.error ⟨ExcClass.valueError, "User not found"⟩ ∧
    (Err.cls ⟨ExcClass.valueError, "User not found"⟩ = ExcClass.valueError ∧
      http_status (start_day noUserDB 1 5).2 = 400) :=
  ⟨by rfl,
   start_day_error_always_valueError noUserDB 1 5
     ⟨ExcClass.valueError, "User not found"⟩ (by rfl)⟩

/-- After appending a tail whose only workday-related event is `we`, with
`we` timestamping at or after everything already in the log, has_open_day
is decided by `we` alone. -/
theorem has_open_day_after (l : List Tracking) (uid : Nat) (tail : List Tracking)
    (we : Tracking)
    (hf : tail.filter (isWorkdayEvent uid) = [we])
    (hb : ∀ a ∈ l, a.date_time ≤ we.date_time) :
    has_open_day (l ++ tail) uid = (we.action == ActionType.workdayStart) := by
  unfold has_open_day
  rw [List.filter_append, hf]
  rw [lastByTime_append_last _ _ (fun a ha => hb a (List.mem_filter.mp ha).1)]

/-- After appending a tail whose only break-related event is a BreakEnd
timestamping at or after everything already in the log, is_break_active
is false. -/
theorem is_break_active_after (l : List Tracking) (uid : Nat) (tail : List Tracking)
    (be : Tracking)
    (hf : tail.filter (isBreakEvent uid) = [be])
    (ha : be.action = ActionType.breakEnd)
    (hb : ∀ a ∈ l, a.date_time ≤ be.date_time) :
    is_break_active (l ++ tail) uid = false := by
  unfold is_break_active
  rw [List.filter_append, hf]
  rw [lastByTime_append_last _ _ (fun a h => hb a (List.mem_filter.mp h).1)]
  simp [ha]

/-- The derived equality test on actions is decidable equality. -/
theorem actionType_beq (a b : ActionType) : (a == b) = decide (a = b) := rfl

/-- Claim C6: on a user with no open day, start_day succeeds and leaves
has_open_day true, and a second start_day with no intervening end_day
fails with the precondition ValueError and appends nothing. -/
theorem start_day_open_then_reject (db : DB) (uid : Nat) (now now2 : Int)
    (hu : (findUser db.users uid).isSome = true)
    (hopen : has_open_day db.log uid = false)
    (htime : ∀ e ∈ db.log, e.date_time ≤ now) :
    (start_day db uid now).2 = Except.ok ⟨true, "Workday started", now⟩ ∧
    has_open_day (start_day db uid now).1.log uid = true ∧
    start_day (start_day db uid now).1 uid now2 =
      ((start_day db uid now).1,
       Except.error ⟨ExcClass.valueError, "The workday has already started"⟩) := by
  obtain ⟨u, hu2⟩ := Option.isSome_iff_exists.mp hu
  have hdb1 : (start_day db uid now).1 =
      ⟨stampUsers db.users uid now, db.projects,
       db.log ++ [⟨uid, none, ActionType.workdayStart, now, none⟩]⟩ := by
    simp [start_day, hu2, hopen]
  have hopen1 : has_open_day
      (db.log ++ [⟨uid, none, ActionType.workdayStart, now, none⟩]) uid = true := by
    rw [has_open_day_after db.log uid _ ⟨uid, none, ActionType.workdayStart, now, none⟩
      (by simp [List.filter, isWorkdayEvent, actionType_beq]) (fun a ha => htime a ha)]
    rfl
  refine ⟨by simp [start_day, hu2, hopen], ?_, ?_⟩
  · rw [hdb1]
    exact hopen1
  · rw [hdb1]
    have hu3 : (findUser (stampUsers db.users uid now) uid).isSome = true := by
      rw [findUser_stampUsers_isSome]
      exact hu
    obtain ⟨u2, hu4⟩ := Option.isSome_iff_exists.mp hu3
    simp [start_day, hu4, hopen1]

/-- Witness for C6: on a fresh store, start_day at time 3 opens the day
and a second start_day at time 4 is rejected. -/
theorem start_day_open_then_reject_witness :
    (findUser freshDB.users 1).isSome = true ∧
    has_open_day freshDB.log 1 = false ∧
    (∀ e ∈ freshDB.log, e.date_time ≤ 3) ∧
    ((start_day freshDB 1 3).2 = Except.ok ⟨true, "Workday started", 3⟩ ∧
     has_open_day (start_day freshDB 1 3).1.log 1 = true ∧
     start_day (start_day freshDB 1 3).1 1 4 =
       ((start_day freshDB 1 3).1,
        Except.error ⟨ExcClass.valueError, "The workday has already started"⟩)) :=
  ⟨by decide, by decide, by simp [freshDB],
   start_day_open_then_reject freshDB 1 3 4 (by decide) (by decide) (by simp [freshDB])⟩

/-- Claim C2: end_day on a user with an open day, an active project and an
active break appends exactly BreakEnd, ProjectEnd, WorkdayEnd in that
order, all carrying the single timestamp captured at operation entry, and
leaves has_open_day false. -/
theorem end_day_three_events (db : DB) (uid pid : Nat) (now : Int)
    (hu : (findUser db.users uid).isSome = true)
    (hopen : has_open_day db.log uid = true)
    (hbr : is_break_active db.log uid = true)
    (hact : get_active_project_id db.log uid = some pid)
    (htime : ∀ e ∈ db.log, e.date_time ≤ now) :
    (end_day db uid now).1.log = db.log ++
      [⟨uid, none, ActionType.breakEnd, now, some "Auto-closed at end of day"⟩,
       ⟨uid, some pid, ActionType.projectEnd, now, some "Auto-closed at end of day"⟩,
       ⟨uid, none, ActionType.workdayEnd, now, none⟩] ∧
    (end_day db uid now).2 = Except.ok ⟨true, "Workday ended", now, true, false⟩ ∧
    has_open_day (end_day db uid now).1.log uid = false := by
  obtain ⟨u, hu2⟩ := Option.isSome_iff_exists.mp hu
  have hact1 : get_active_project_id
      (db.log ++ [⟨uid, none, ActionType.breakEnd, now, some "Auto-closed at end of day"⟩])
      uid = some pid := by
    rw [get_active_project_id_append _ _ _ (by simp [isProjectEvent])]
    exact hact
  have hbr3 : is_break_active (db.log ++
      [⟨uid, none, ActionType.breakEnd, now, some "Auto-closed at end of day"⟩,
       ⟨uid, some pid, ActionType.projectEnd, now, some "Auto-closed at end of day"⟩,
       ⟨uid, none, ActionType.workdayEnd, now, none⟩]) uid = false :=
    is_break_active_after db.log uid _
      ⟨uid, none, ActionType.breakEnd, now, some "Auto-closed at end of day"⟩
      (by simp [List.filter, isBreakEvent, actionType_beq]) rfl (fun a ha => htime a ha)
  have hlog : (end_day db uid now).1.log = db.log ++
      [⟨uid, none, ActionType.breakEnd, now, some "Auto-closed at end of day"⟩,
       ⟨uid, some pid, ActionType.projectEnd, now, some "Auto-closed at end of day"⟩,
       ⟨uid, none, ActionType.workdayEnd, now, none⟩] := by
    simp [end_day, hu2, hopen, hbr, hact1]
  refine ⟨hlog, ?_, ?_⟩
  · simp [end_day, hu2, hopen, hbr, hact1, hbr3, actionType_beq]
  · rw [hlog]
    rw [has_open_day_after db.log uid _ ⟨uid, none, ActionType.workdayEnd, now, none⟩
      (by simp [List.filter, isWorkdayEvent, actionType_beq]) (fun a ha => htime a ha)]
    rfl

/-- Witness for C2 at the concrete store with open day, active project
and active break. -/
theorem end_day_three_events_witness :
    (findUser endDayDB.users 1).isSome = true ∧
    has_open_day endDayDB.log 1 = true ∧
    is_break_active endDayDB.log 1 = true ∧
    get_active_project_id endDayDB.log 1 = some 1 ∧
    (∀ e ∈ endDayDB.log, e.date_time ≤ 5) ∧
    ((end_day endDayDB 1 5).1.log = endDayDB.log ++
      [⟨1, none, ActionType.breakEnd, 5, some "Auto-closed at end of day"⟩,
       ⟨1, some 1, ActionType.projectEnd, 5, some "Auto-closed at end of day"⟩,
       ⟨1, none, ActionType.workdayEnd, 5, none⟩] ∧
     (end_day endDayDB 1 5).2 = Except.ok ⟨true, "Workday ended", 5, true, false⟩ ∧
     has_open_day (end_day endDayDB 1 5).1.log 1 = false) :=
  ⟨by decide, by decide, by decide, by decide, by decide,
   end_day_three_events endDayDB 1 1 5 (by decide) (by decide) (by decide)
     (by decide) (by decide)⟩

/-- Claim C10: for a user with an open day and an active break, the
closed_break field of a successful end_day result is false, because the
source evaluates is_break_active only after the BreakEnd was appended. -/
theorem end_day_closed_break_false (db : DB) (uid : Nat) (now : Int)
    (hu : (findUser db.users uid).isSome = true)
    (hopen : has_open_day db.log uid = true)
    (hbr : is_break_active db.log uid = true)
    (htime : ∀ e ∈ db.log, e.date_time ≤ now) :
    Except.map (fun r => r.closed_break) (end_day db uid now).2 = Except.ok false := by
  obtain ⟨u, hu2⟩ := Option.isSome_iff_exists.mp hu
  cases hact : get_active_project_id
      (db.log ++ [⟨uid, none, ActionType.breakEnd, now, some "Auto-closed at end of day"⟩])
      uid with
  | none =>
    have hbr2 : is_break_active (db.log ++
        [⟨uid, none, ActionType.breakEnd, now, some "Auto-closed at end of day"⟩,
         ⟨uid, none, ActionType.workdayEnd, now, none⟩]) uid = false :=
      is_break_active_after db.log uid _
        ⟨uid, none, ActionType.breakEnd, now, some "Auto-closed at end of day"⟩
        (by simp [List.filter, isBreakEvent, actionType_beq]) rfl (fun a ha => htime a ha)
    simp [end_day, hu2, hopen, hbr, hact, hbr2, Except.map]
  | some pid =>
    have hbr2 : is_break_active (db.log ++
        [⟨uid, none, ActionType.breakEnd, now, some "Auto-closed at end of day"⟩,
         ⟨uid, some pid, ActionType.projectEnd, now, some "Auto-closed at end of day"⟩,
         ⟨uid, none, ActionType.workdayEnd, now, none⟩]) uid = false :=
      is_break_active_after db.log uid _
        ⟨uid, none, ActionType.breakEnd, now, some "Auto-closed at end of day"⟩
        (by simp [List.filter, isBreakEvent, actionType_beq]) rfl (fun a ha => htime a ha)
    simp [end_day, hu2, hopen, hbr, hact, hbr2, Except.map]

/-- Witness for C10 at the concrete store with open day, active project
and active break, at time 6. -/
theorem end_day_closed_break_false_witness :
    (findUser endDayDB.users 1).isSome = true ∧
    has_open_day endDayDB.log 1 = true ∧
    is_break_active endDayDB.log 1 = true ∧
    (∀ e ∈ endDayDB.log, e.date_time ≤ 6) ∧
    Except.map (fun r => r.closed_break) (end_day endDayDB 1 6).2 = Except.ok false :=
  ⟨by decide, by decide, by decide, by decide,
   end_day_closed_break_false endDayDB 1 6 (by decide) (by decide) (by decide)
     (by decide)⟩

/-- Claim C4: switching to project p while a different project aid is
active succeeds with ended_project_id = aid, appends the ProjectEnd for
aid directly before the ProjectStart for p, and increments the target
tracking_count by exactly one; the concrete switch sequence A, B, A, B
from a fresh open day leaves both counts at 2. -/
theorem start_project_switch (db : DB) (uid : Nat) (name : String) (now : Int)
    (p : Project) (aid : Nat)
    (hu : (findUser db.users uid).isSome = true)
    (hopen : has_open_day db.log uid = true)
    (hp : get_by_name db.projects name uid = some p)
    (hfind : db.projects.find? (fun q => q.id == p.id) = some p)
    (hact : get_active_project_id db.log uid = some aid)
    (hne : (aid == p.id) = false)
    (hbr : is_break_active db.log uid = false) :
    ((start_project db uid name true now).2 =
      Except.ok ⟨true, "Started working on " ++ name, some now, some p.id,
        some aid, false⟩ ∧
     (start_project db uid name true now).1.log = db.log ++
      [⟨uid, some aid, ActionType.projectEnd, now, some "Auto-ended for project switch"⟩,
       ⟨uid, some p.id, ActionType.projectStart, now, none⟩] ∧
     tracking_count_of (start_project db uid name true now).1.projects p.id =
       some (p.tracking_count + 1)) ∧
    (tracking_count_of ababFinal.projects 1 = some 2 ∧
     tracking_count_of ababFinal.projects 2 = some 2) := by
  obtain ⟨u, hu2⟩ := Option.isSome_iff_exists.mp hu
  have hbr1 : is_break_active
      (db.log ++ [⟨uid, some aid, ActionType.projectEnd, now,
        some "Auto-ended for project switch"⟩]) uid = false := by
    rw [is_break_active_append _ _ _ (by simp [isBreakEvent, actionType_beq])]
    exact hbr
  refine ⟨⟨?_, ?_, ?_⟩, by decide, by decide⟩
  · simp [start_project, hu2, hopen, hp, hact, hne, hbr1]
  · simp [start_project, hu2, hopen, hp, hact, hne, hbr1]
  · simp only [start_project, hu2, hopen, hp, hact, hne, hbr1]
    simp only [Bool.not_true, Bool.false_eq_true, if_false, if_true]
    rw [tracking_count_setTrackingCount, hfind]
    rfl

/-- Witness for C4: with project A active, starting project B performs the
handover and bumps the tracking_count of B from 0 to 1. -/
theorem start_project_switch_witness :
    (findUser switchDB.users 1).isSome = true ∧
    has_open_day switchDB.log 1 = true ∧
    get_by_name switchDB.projects "B" 1 = some ⟨2, "B", 1, "active", 0⟩ ∧
    switchDB.projects.find? (fun q => q.id == Project.id ⟨2, "B", 1, "active", 0⟩) =
      some ⟨2, "B", 1, "active", 0⟩ ∧
    get_active_project_id switchDB.log 1 = some 1 ∧
    ((1 : Nat) == Project.id ⟨2, "B", 1, "active", 0⟩) = false ∧
    is_break_active switchDB.log 1 = false ∧
    (((start_project switchDB 1 "B" true 2).2 =
        Except.ok ⟨true, "Started working on " ++ "B", some 2,
          some (Project.id ⟨2, "B", 1, "active", 0⟩), some 1, false⟩ ∧
      (start_project switchDB 1 "B" true 2).1.log = switchDB.log ++
        [⟨1, some 1, ActionType.projectEnd, 2, some "Auto-ended for project switch"⟩,
         ⟨1, some (Project.id ⟨2, "B", 1, "active", 0⟩), ActionType.projectStart, 2, none⟩] ∧
      tracking_count_of (start_project switchDB 1 "B" true 2).1.projects
          (Project.id ⟨2, "B", 1, "active", 0⟩) =
        some (Project.tracking_count ⟨2, "B", 1, "active", 0⟩ + 1)) ∧
     (tracking_count_of ababFinal.projects 1 = some 2 ∧
      tracking_count_of ababFinal.projects 2 = some 2)) :=
  ⟨by decide, by decide, by decide, by decide, by decide, by decide, by decide,
   start_project_switch switchDB 1 "B" 2 ⟨2, "B", 1, "active", 0⟩ 1
     (by decide) (by decide) (by decide) (by decide) (by decide) (by decide)
     (by decide)⟩

/-- Claim C5: report derivation on the scenario WorkdayStart, ProjectStart
of X, BreakStart, BreakEnd plus ProjectResume, ProjectEnd plus WorkdayEnd
yields exactly the two closed sessions of X, one break pairing the
BreakStart with the BreakEnd, and total work (t2 - t1) + (t4 - t3). -/
theorem report_scenario (t0 t1 t2 t3 t4 now : Int)
    (h01 : t0 < t1) (h12 : t1 < t2) (h23 : t2 < t3) (h34 : t3 < t4) :
    (calculate (scenarioEntries t0 t1 t2 t3 t4) now).sessions =
      [⟨"X", t1, t2, t2 - t1, false⟩, ⟨"X", t3, t4, t4 - t3, false⟩] ∧
    (calculate (scenarioEntries t0 t1 t2 t3 t4) now).breaks = [⟨t2, t3, t3 - t2⟩] ∧
    get_total_work_time (calculate (scenarioEntries t0 t1 t2 t3 t4) now) =
      (t2 - t1) + (t4 - t3) := by
  refine ⟨rfl, rfl, ?_⟩
  show (0 : Int) + (t2 - t1) + (t4 - t3) = (t2 - t1) + (t4 - t3)
  omega

/-- Witness for C5 at the concrete times 0 < 1 < 2 < 3 < 4 and now = 9. -/
theorem report_scenario_witness :
    ((0 : Int) < 1) ∧ ((1 : Int) < 2) ∧ ((2 : Int) < 3) ∧ ((3 : Int) < 4) ∧
    ((calculate (scenarioEntries 0 1 2 3 4) 9).sessions =
      [⟨"X", 1, 2, 2 - 1, false⟩, ⟨"X", 3, 4, 4 - 3, false⟩] ∧
     (calculate (scenarioEntries 0 1 2 3 4) 9).breaks = [⟨2, 3, 3 - 2⟩] ∧
     get_total_work_time (calculate (scenarioEntries 0 1 2 3 4) 9) =
       (2 - 1) + (4 - 3)) :=
  ⟨by decide, by decide, by decide, by decide,
   report_scenario 0 1 2 3 4 9 (by decide) (by decide) (by decide) (by decide)⟩
